import Mathlib

/-!
Shallow embedding of the dollybot market-structure / signal-lifecycle core.

Prices, indicator values and risk multiples are modelled as rationals (ℚ);
bar timestamps as integers (ℤ).  JavaScript `null`/`undefined`/`NaN` slots are
modelled as `Option ℚ` (`none` = missing).  Unused record fields (volume, the
bar's opening price, pattern description strings, signal ids and symbols) are
omitted from the structures; every field that the embedded functions read is
kept under its source name.
-/

/-- One OHLC bar (source: Bar objects produced by `fetchCandles` in
`src/scanner/marketData.js`; the `open` and `volume` fields are never read by
the embedded functions and are omitted). -/
structure Candle where
  time : ℤ
  high : ℚ
  low : ℚ
  close : ℚ
deriving DecidableEq, Repr

/-- Trade direction (source: the `direction` field of a signal,
`'long' | 'short'`). -/
inductive Direction where
  | long
  | short
deriving DecidableEq, Repr

/-- The immutable trade parameters of a signal together with its trigger time
(source: signal rows consumed by `src/evaluation/checker.js`). -/
structure Signal where
  entry : ℚ
  stop_loss : ℚ
  take_profits : List ℚ
  direction : Direction
  triggered_at : ℤ
deriving DecidableEq, Repr

/-- The hit kind recorded at trade closure (source: the `hitType` strings
`'sl'`, `'tp1'`, `'tp2'`, ..., `'timeout'`; `tp n` stands for the string
`tp${n}` built in `checkTriggeredSignal`). -/
inductive HitType where
  | sl
  | tp (n : ℕ)
  | timeout
deriving DecidableEq, Repr

/-- Calculate the R-multiple for a trade
(source: `calculateRMultiple` in the calculator module). -/
def calculateRMultiple (signal : Signal) (hitPrice : ℚ) (hitType : HitType) : ℚ :=
  let R := |signal.entry - signal.stop_loss|
  if R = 0 then 0
  else
    match hitType with
    | .sl => -1
    | .timeout => 0
    | .tp _ =>
      match signal.direction with
      | .long => (hitPrice - signal.entry) / R
      | .short => (signal.entry - hitPrice) / R

/-- Determine the outcome category from the hit type and the R-multiple
(source: `determineOutcome` in the calculator module). -/
def determineOutcome (hitType : HitType) (rMultiple : ℚ) : String :=
  match hitType with
  | .timeout => "timeout"
  | .sl => "loss"
  | .tp _ =>
    if 0 < rMultiple then "win"
    else if rMultiple = 0 then "breakeven"
    else "loss"

/-- The fields written at trade closure: hit kind, R-multiple, hit price,
closing bar timestamp (stored as both `closed_at` and `outcome_detail.hitTime`)
and outcome string (source: the `updateSignalStatus` payload built in
`checkTriggeredSignal`). -/
structure Transition where
  hitType : HitType
  rMultiple : ℚ
  hitPrice : ℚ
  closedAt : ℤ
  outcome : String
deriving DecidableEq, Repr

/-- Stop-loss condition on one bar (source: `slHit` in `checkTriggeredSignal`:
long iff `candle.low <= stop_loss`, short iff `candle.high >= stop_loss`). -/
def slHit (direction : Direction) (stop_loss : ℚ) (candle : Candle) : Bool :=
  match direction with
  | .long => candle.low ≤ stop_loss
  | .short => stop_loss ≤ candle.high

/-- Take-profit condition on one bar (source: `tpHit` in
`checkTriggeredSignal`: long iff `candle.high >= tp`, short iff
`candle.low <= tp`). -/
def tpHit (direction : Direction) (tp : ℚ) (candle : Candle) : Bool :=
  match direction with
  | .long => tp ≤ candle.high
  | .short => candle.low ≤ tp

/-- Scan the take-profit list in stored order, returning the first index
(offset by `i`) whose condition fires together with its price (source: the
inner `for (let i = 0; i < take_profits.length; i++)` loop of
`checkTriggeredSignal`). -/
def firstTPHitAux (direction : Direction) (candle : Candle) :
    List ℚ → ℕ → Option (ℕ × ℚ)
  | [], _ => none
  | tp :: rest, i =>
    if tpHit direction tp candle then some (i, tp)
    else firstTPHitAux direction candle rest (i + 1)

/-- First take-profit index hit on a bar, scanning from index 0. -/
def firstTPHit (direction : Direction) (take_profits : List ℚ) (candle : Candle) :
    Option (ℕ × ℚ) :=
  firstTPHitAux direction candle take_profits 0

/-- Walk the post-trigger bars in list order; on each bar check the stop-loss
first, then the take-profits in stored order; stop at the first bar where
either fires (source: the `for (const candle of candlesAfterTrigger)` loop of
`checkTriggeredSignal`). -/
def scanCandles (signal : Signal) : List Candle → Option Transition
  | [] => none
  | candle :: rest =>
    if slHit signal.direction signal.stop_loss candle then
      let rMultiple := calculateRMultiple signal signal.stop_loss .sl
      some ⟨.sl, rMultiple, signal.stop_loss, candle.time, determineOutcome .sl rMultiple⟩
    else
      match firstTPHit signal.direction signal.take_profits candle with
      | some (i, tp) =>
        let hitType := HitType.tp (i + 1)
        let rMultiple := calculateRMultiple signal tp hitType
        some ⟨hitType, rMultiple, tp, candle.time, determineOutcome hitType rMultiple⟩
      | none => scanCandles signal rest

/-- A bar closes the trade iff the stop-loss fires or some take-profit fires
on it. -/
def barCloses (signal : Signal) (candle : Candle) : Bool :=
  slHit signal.direction signal.stop_loss candle ||
    (firstTPHit signal.direction signal.take_profits candle).isSome

/-- The pure core of `checkTriggeredSignal` (source:
`src/evaluation/checker.js`): filter the fetched bars to those strictly after
`triggered_at`, return without mutation if none remain, otherwise scan for the
first SL/TP hit; if none fires and the bar count reaches the timeout
threshold, close as a timeout using the last bar's close as recorded hit price
(with the R-multiple fixed at 0 by `calculateRMultiple`). -/
def checkTriggeredSignal (signal : Signal) (candles : List Candle)
    (timeoutCandles : ℕ) : Option Transition :=
  let candlesAfterTrigger := candles.filter (fun c => signal.triggered_at < c.time)
  match candlesAfterTrigger with
  | [] => none
  | _ :: _ =>
    match scanCandles signal candlesAfterTrigger with
    | some tr => some tr
    | none =>
      if timeoutCandles ≤ candlesAfterTrigger.length then
        let last := candlesAfterTrigger.getLastD ⟨0, 0, 0, 0⟩
        let rMultiple := calculateRMultiple signal last.close .timeout
        some ⟨.timeout, rMultiple, last.close, last.time, "timeout"⟩
      else none

/-- Ascending sort of bars by timestamp (used to state the ordering claim;
the source performs no such sort, it only reverses the provider's
newest-first list in `fetchCandles`). -/
def sortCandlesByTime (candles : List Candle) : List Candle :=
  List.insertionSort (fun a b => a.time ≤ b.time) candles

/-- One EMA recurrence chain: given the previous EMA value, emit
`(price - prev) * multiplier + prev` for each remaining price (source: the
`for (let i = period; i < prices.length; i++)` loop of `calculateEMA` in
`src/indicators/ema.js`). -/
def emaFrom (multiplier prev : ℚ) : List ℚ → List ℚ
  | [] => []
  | price :: rest =>
    ((price - prev) * multiplier + prev) ::
      emaFrom multiplier ((price - prev) * multiplier + prev) rest

/-- Exponential moving average (source: `calculateEMA` in
`src/indicators/ema.js`).  `none` stands for the source's `NaN` slots. -/
def calculateEMA (prices : List ℚ) (period : ℕ) : List (Option ℚ) :=
  if prices.length = 0 then []
  else if period = 0 ∨ prices.length < period then List.replicate prices.length none
  else
    let multiplier : ℚ := 2 / (period + 1)
    let sma := (prices.take period).sum / period
    List.replicate (period - 1) none ++
      some sma :: (emaFrom multiplier sma (prices.drop period)).map some

/-- Successive price differences `prices[i] - prices[i-1]` (source: the
`changes` array of `calculateRSI` in `src/indicators/rsi.js`). -/
def priceChanges : List ℚ → List ℚ
  | [] => []
  | [_] => []
  | a :: b :: rest => (b - a) :: priceChanges (b :: rest)

/-- Seed average gain over the first `period` changes (source: the seeding
loop of `calculateRSI`: `if (changes[i] > 0) avgGain += changes[i]`). -/
def seedAvgGain (changes : List ℚ) (period : ℕ) : ℚ :=
  ((changes.take period).map (fun c => if 0 < c then c else 0)).sum / period

/-- Seed average loss over the first `period` changes (source: the seeding
loop of `calculateRSI`: `else avgLoss += Math.abs(changes[i])`). -/
def seedAvgLoss (changes : List ℚ) (period : ℕ) : ℚ :=
  ((changes.take period).map (fun c => if 0 < c then 0 else |c|)).sum / period

/-- RSI value from the current smoothed averages (source: the lines
`rs = avgLoss === 0 ? 100 : avgGain / avgLoss` and
`100 - (100 / (1 + rs))` of `calculateRSI`).  Note the zero-loss guard
substitutes the finite ratio 100, so the resulting value is
`100 - 100/101`, not 100. -/
def rsiVal (avgGain avgLoss : ℚ) : ℚ :=
  let rs := if avgLoss = 0 then 100 else avgGain / avgLoss
  100 - 100 / (1 + rs)

/-- Wilder-smoothed RSI values for the changes after the seed window (source:
the `for (let i = period; i < changes.length; i++)` loop of `calculateRSI`). -/
def rsiRest (period : ℕ) (avgGain avgLoss : ℚ) : List ℚ → List ℚ
  | [] => []
  | c :: cs =>
    let gain := if 0 < c then c else 0
    let loss := if c < 0 then |c| else 0
    let g := (avgGain * ((period : ℚ) - 1) + gain) / period
    let l := (avgLoss * ((period : ℚ) - 1) + loss) / period
    rsiVal g l :: rsiRest period g l cs

/-- Relative strength index (source: `calculateRSI` in
`src/indicators/rsi.js`).  `none` stands for the source's `NaN` slots. -/
def calculateRSI (prices : List ℚ) (period : ℕ) : List (Option ℚ) :=
  if prices.length < period + 1 then List.replicate prices.length none
  else
    let changes := priceChanges prices
    let avgGain := seedAvgGain changes period
    let avgLoss := seedAvgLoss changes period
    List.replicate period none ++
      some (rsiVal avgGain avgLoss) ::
        (rsiRest period avgGain avgLoss (changes.drop period)).map some

/-- A swing point: price of a local extremum together with its bar time and
index (source: the objects pushed by `findSwingHighs` / `findSwingLows` in
`src/indicators/swings.js`). -/
structure SwingPoint where
  price : ℚ
  time : ℤ
  index : ℕ
deriving DecidableEq, Repr

/-- The summary the source keeps per cluster: arithmetic mean of the member
prices and the member count (source: the objects pushed onto `clusters` in
`clusterSwings`). -/
structure ClusterOut where
  avgPrice : ℚ
  touches : ℕ
deriving DecidableEq, Repr

/-- Ascending sort of swing points by price (source:
`[...swings].sort((a, b) => a.price - b.price)` in `clusterSwings`). -/
def sortByPrice (swings : List SwingPoint) : List SwingPoint :=
  List.insertionSort (fun a b => a.price ≤ b.price) swings

/-- The greedy grouping loop of `clusterSwings`: `anchor` is the first member
of the current cluster (`currentCluster[0]` in the source) and `cur` its
member list so far; a swing within `threshold` of the anchor joins the
cluster, otherwise the cluster is flushed and a new one starts. -/
def clusterGo (threshold : ℚ) (anchor : SwingPoint) (cur : List SwingPoint) :
    List SwingPoint → List (List SwingPoint)
  | [] => [cur]
  | s :: rest =>
    if |s.price - anchor.price| ≤ threshold then
      clusterGo threshold anchor (cur ++ [s]) rest
    else
      cur :: clusterGo threshold s [s] rest

/-- Member lists of the greedy price clusters over the price-sorted swings
(source: the loop body of `clusterSwings`). -/
def clusterMembers (swings : List SwingPoint) (threshold : ℚ) :
    List (List SwingPoint) :=
  match sortByPrice swings with
  | [] => []
  | s :: rest => clusterGo threshold s [s] rest

/-- Flush a cluster to its summary (source: the
`avgPrice = currentCluster.reduce(...) / currentCluster.length` lines of
`clusterSwings`). -/
def summarize (cluster : List SwingPoint) : ClusterOut :=
  ⟨(cluster.map (fun s => s.price)).sum / cluster.length, cluster.length⟩

/-- Cluster swing points that are close together (source: `clusterSwings` in
`src/indicators/swings.js`). -/
def clusterSwings (swings : List SwingPoint) (threshold : ℚ) : List ClusterOut :=
  (clusterMembers swings threshold).map summarize

/-- A support/resistance level (source: the objects pushed onto `srLevels`
in `identifySRLevels`; `type` is `"resistance"` or `"support"`). -/
structure SRLevel where
  price : ℚ
  type : String
  touches : ℕ
deriving DecidableEq, Repr

/-- Identify support/resistance levels from swing highs and lows (source:
`identifySRLevels` in `src/indicators/swings.js`; the source's default
`threshold = 0.5` is passed explicitly here). -/
def identifySRLevels (swingHighs swingLows : List SwingPoint) (atrValue : ℚ)
    (threshold : ℚ) : List SRLevel :=
  if atrValue ≤ 0 then []
  else
    let clusterThreshold := atrValue * threshold
    let res := (clusterSwings swingHighs clusterThreshold).map
      (fun c => SRLevel.mk c.avgPrice "resistance" c.touches)
    let sup := (clusterSwings swingLows clusterThreshold).map
      (fun c => SRLevel.mk c.avgPrice "support" c.touches)
    List.insertionSort (fun a b => b.price ≤ a.price) (res ++ sup)

/-- Left-pad the decimal rendering of a natural number with zeros to 5
digits (helper for `toFixed5`). -/
def pad5 (n : ℕ) : String :=
  let s := toString n
  String.mk (List.replicate (5 - s.length) '0') ++ s

/-- JavaScript's `Number.prototype.toFixed(5)`: render the sign, then the
magnitude rounded half-away-from-zero to 5 decimal places (used by the
rejection / heuristic reason strings of `src/scanner/prefilter.js`). -/
def toFixed5 (q : ℚ) : String :=
  let sign := if q < 0 then "-" else ""
  let m : ℕ := (round (|q| * 100000)).toNat
  sign ++ toString (m / 100000) ++ "." ++ pad5 (m % 100000)

/-- JavaScript truthiness of a nullable numeric slot: `null`/`undefined` and
`0` are falsy (source: the `!indicators.atr14 || !indicators.ema50 ||
!indicators.ema200` guard of `applyPrefilters`). -/
def truthy (o : Option ℚ) : Bool :=
  match o with
  | none => false
  | some x => decide (x ≠ 0)

/-- Price-scaled minimum ATR floor (source: `getMinimumATR` in
`src/scanner/prefilter.js`). -/
def getMinimumATR (price : ℚ) : ℚ :=
  if price < 10 then 0.0001 else price * 0.0001

/-- Detection flag of a candle pattern (source: the `{detected, ...}` objects
of `src/indicators/patterns.js`; the description string is never read by the
prefilter and is omitted). -/
structure PatternResult where
  detected : Bool
deriving DecidableEq, Repr

/-- The pattern bundle read by the prefilter heuristics. -/
structure Patterns where
  bullishEngulfing : PatternResult
  bearishEngulfing : PatternResult
  bullishPin : PatternResult
  bearishPin : PatternResult
deriving DecidableEq, Repr

/-- The swing-structure slice of the indicator bundle read by the prefilter:
swing highs, swing lows and the nearest S/R level (if within the proximity
threshold). -/
structure SwingsInfo where
  swingHighs : List SwingPoint
  swingLows : List SwingPoint
  nearSR : Option SRLevel
deriving DecidableEq, Repr

/-- Trend classification slice read by the prefilter (only the direction
string is consulted: `"uptrend"`, `"downtrend"`, `"choppy"`, ...). -/
structure Trend where
  direction : String
deriving DecidableEq, Repr

/-- The indicator bundle consumed by `applyPrefilters` (source: the object
built by `computeAllIndicators`; only the fields the prefilter reads are
kept). -/
structure Indicators where
  atr14 : Option ℚ
  ema50 : Option ℚ
  ema200 : Option ℚ
  rsi14 : ℚ
  currentPrice : ℚ
  trend : Trend
  patterns : Patterns
  swings : SwingsInfo
deriving DecidableEq, Repr

/-- The candidate decision returned by `applyPrefilters`. -/
structure PrefilterResult where
  isCandidate : Bool
  reason : String
deriving DecidableEq, Repr

/-- Trend-aligned engulfing heuristic (source: `checkTrendAlignedEngulfing`
in `src/scanner/prefilter.js`).  `ema50.getD 0` stands for the raw `ema50`
slot; `applyPrefilters` only reaches this code with a truthy `ema50`, and for
the comparisons used here JavaScript coerces a `null` slot to 0 anyway. -/
def checkTrendAlignedEngulfing (indicators : Indicators) : Option String :=
  if indicators.patterns.bullishEngulfing.detected &&
      (indicators.trend.direction == "uptrend") &&
      decide (indicators.ema50.getD 0 < indicators.currentPrice) then
    some "Bullish engulfing in uptrend"
  else if indicators.patterns.bearishEngulfing.detected &&
      (indicators.trend.direction == "downtrend") &&
      decide (indicators.currentPrice < indicators.ema50.getD 0) then
    some "Bearish engulfing in downtrend"
  else none

/-- Pin bar at structure heuristic (source: `checkPinBarAtStructure` in
`src/scanner/prefilter.js`; the `lastCandle` argument is passed by the source
but never read by the body). -/
def checkPinBarAtStructure (indicators : Indicators) (lastCandle : Candle) :
    Option String :=
  match indicators.swings.nearSR with
  | none => none
  | some lvl =>
    if indicators.patterns.bullishPin.detected && (lvl.type == "support") then
      some ("Bullish pin bar at support level (" ++ toFixed5 lvl.price ++ ")")
    else if indicators.patterns.bearishPin.detected && (lvl.type == "resistance") then
      some ("Bearish pin bar at resistance level (" ++ toFixed5 lvl.price ++ ")")
    else none

/-- `closes[closes.length - 2] < p` with JavaScript's out-of-range indexing
(an index below 0 yields `undefined` and the comparison is false). -/
def secondLastLT (closes : List ℚ) (p : ℚ) : Bool :=
  if 2 ≤ closes.length then
    match closes[closes.length - 2]? with
    | some v => decide (v < p)
    | none => false
  else false

/-- `closes[closes.length - 2] > p` with JavaScript's out-of-range indexing. -/
def secondLastGT (closes : List ℚ) (p : ℚ) : Bool :=
  if 2 ≤ closes.length then
    match closes[closes.length - 2]? with
    | some v => decide (p < v)
    | none => false
  else false

/-- Pullback-into-trend heuristic (source: `checkPullbackIntoTrend` in
`src/scanner/prefilter.js`).  `candles.drop (candles.length - 10)` is the
source's `candles.slice(-10)`; `minimum?`/`maximum?` return `none` exactly
when the source's `Math.min(...)`/`Math.max(...)` over an empty spread would
yield an infinity that fails every subsequent comparison. -/
def checkPullbackIntoTrend (candles : List Candle) (indicators : Indicators) :
    Option String :=
  if indicators.trend.direction != "uptrend" &&
      indicators.trend.direction != "downtrend" then none
  else
    let recentCandles := candles.drop (candles.length - 10)
    let closes := recentCandles.map (fun c => c.close)
    let ema50 := indicators.ema50.getD 0
    if indicators.trend.direction == "uptrend" then
      match closes.min? with
      | none => none
      | some minRecent =>
        let priceBounced := decide (minRecent < indicators.currentPrice) &&
          secondLastLT closes indicators.currentPrice
        let touchedEMA50 := decide (|minRecent - ema50| / ema50 < 0.005)
        let nearSwingLow := !indicators.swings.swingLows.isEmpty &&
          (match indicators.swings.swingLows.getLast? with
           | some sl => decide (|minRecent - sl.price| / minRecent < 0.01)
           | none => false)
        if priceBounced && (touchedEMA50 || nearSwingLow) then
          some "Pullback to support in uptrend, bouncing"
        else none
    else
      match closes.max? with
      | none => none
      | some maxRecent =>
        let priceRejected := decide (indicators.currentPrice < maxRecent) &&
          secondLastGT closes indicators.currentPrice
        let touchedEMA50 := decide (|maxRecent - ema50| / ema50 < 0.005)
        let nearSwingHigh := !indicators.swings.swingHighs.isEmpty &&
          (match indicators.swings.swingHighs.getLast? with
           | some sh => decide (|maxRecent - sh.price| / maxRecent < 0.01)
           | none => false)
        if priceRejected && (touchedEMA50 || nearSwingHigh) then
          some "Pullback to resistance in downtrend, rejecting"
        else none

/-- Momentum-extreme (simplified RSI divergence) heuristic, evaluated by
`applyPrefilters` only in aggressive mode (source: `checkRSIDivergence` in
`src/scanner/prefilter.js`; the `candles` argument is passed by the source
but never read by the body).  Note the early return: it requires at least 2
swing highs AND at least 2 swing lows before either RSI branch is tried. -/
def checkRSIDivergence (candles : List Candle) (indicators : Indicators) :
    Option String :=
  if indicators.swings.swingHighs.length < 2 ∨
      indicators.swings.swingLows.length < 2 then none
  else if indicators.rsi14 < 30 ∧ 2 ≤ indicators.swings.swingLows.length then
    some "RSI oversold with potential bullish divergence"
  else if 70 < indicators.rsi14 ∧ 2 ≤ indicators.swings.swingHighs.length then
    some "RSI overbought with potential bearish divergence"
  else none

/-- Reversal-at-strong-structure heuristic (source: `checkReversalAtSR` in
`src/scanner/prefilter.js`). -/
def checkReversalAtSR (indicators : Indicators) : Option String :=
  match indicators.swings.nearSR with
  | none => none
  | some lvl =>
    if lvl.touches < 2 then none
    else if lvl.type == "support" then
      if 1 ≤ ([indicators.patterns.bullishEngulfing.detected,
               indicators.patterns.bullishPin.detected].filter id).length then
        some ("Reversal setup at strong support (" ++ toString lvl.touches ++ " touches)")
      else none
    else if lvl.type == "resistance" then
      if 1 ≤ ([indicators.patterns.bearishEngulfing.detected,
               indicators.patterns.bearishPin.detected].filter id).length then
        some ("Reversal setup at strong resistance (" ++ toString lvl.touches ++ " touches)")
      else none
    else none

/-- The reason strings of the heuristics that triggered, in the order the
source pushes them onto `reasons` (the momentum-extreme entry is only
consulted when `mode === 'aggressive'`).  All produced strings are non-empty,
so the source's extra `filter(Boolean)` before joining is the identity. -/
def triggeredReasons (candles : List Candle) (indicators : Indicators)
    (mode : String) : List String :=
  let lastCandle := candles.getLastD ⟨0, 0, 0, 0⟩
  [checkTrendAlignedEngulfing indicators,
   checkPinBarAtStructure indicators lastCandle,
   checkPullbackIntoTrend candles indicators,
   if mode == "aggressive" then checkRSIDivergence candles indicators else none,
   checkReversalAtSR indicators].filterMap id

/-- The candidate prefilter (source: `applyPrefilters` in
`src/scanner/prefilter.js`): fail fast on too little data, missing or falsy
indicators, an ATR below the price-scaled floor, or a choppy trend; otherwise
join the triggered heuristic reasons with " + ". -/
def applyPrefilters (candles : List Candle) (indicators : Indicators)
    (mode : String) : PrefilterResult :=
  if candles.length < 50 then
    ⟨false, "Insufficient candle data"⟩
  else if !(truthy indicators.atr14 && truthy indicators.ema50 &&
      truthy indicators.ema200) then
    ⟨false, "Missing required indicators"⟩
  else
    let atr := indicators.atr14.getD 0
    let minAtr := getMinimumATR indicators.currentPrice
    if atr < minAtr then
      ⟨false, "ATR too small (" ++ toFixed5 atr ++ " < " ++ toFixed5 minAtr ++
        "), insufficient volatility"⟩
    else if indicators.trend.direction = "choppy" then
      ⟨false, "Choppy market with flat EMAs, no clear trend"⟩
    else
      let reasons := triggeredReasons candles indicators mode
      if reasons.length = 0 then ⟨false, ""⟩
      else ⟨true, String.intercalate " + " reasons⟩

/-! Concrete fixtures used by the witness and counterexample theorems. -/

/-- A long signal: entry 1.10, stop 1.095, TPs [1.11, 1.12], triggered at 0. -/
def exC2sig : Signal := ⟨11/10, 1095/1000, [111/100, 112/100], Direction.long, 0⟩

/-- A bar whose low pierces the stop-loss of `exC2sig` and whose high also
reaches its first take-profit. -/
def exC2candle : Candle := ⟨1, 111/100, 109/100, 110/100⟩

/-- A long signal: entry 1.10, stop 1.095, TPs [1.11, 1.12], triggered at 0. -/
def exC3sig : Signal := ⟨11/10, 1095/1000, [111/100, 112/100], Direction.long, 0⟩

/-- A bar above the stop of `exC3sig` whose high 1.1250 is beyond both TPs. -/
def exC3candle : Candle := ⟨1, 1125/1000, 1101/1000, 112/100⟩

/-- A long signal: entry 1.10, stop 1.095, one TP at 1.11, triggered at 0. -/
def exC9sig : Signal := ⟨11/10, 1095/1000, [111/100], Direction.long, 0⟩

/-- A bar at time 2 that hits the take-profit of `exC9sig`. -/
def exC9tpBar : Candle := ⟨2, 1115/1000, 11/10, 111/100⟩

/-- A bar at time 1 that hits the stop-loss of `exC9sig`. -/
def exC9slBar : Candle := ⟨1, 11/10, 109/100, 1095/1000⟩

/-- A flat bar used to pad candle lists past the 50-bar prefilter floor. -/
def exC7candle : Candle := ⟨0, 1, 1, 1⟩

/-- 50 flat bars. -/
def exC7candles : List Candle := List.replicate 50 exC7candle

/-- An indicator bundle with RSI 25 and two swing lows but zero swing highs:
every prefilter precondition passes, yet `checkRSIDivergence` never fires
because of its two-swing-highs early return. -/
def exC7ind : Indicators :=
  ⟨some 1, some 1, some 1, 25, 1, ⟨"uptrend"⟩,
   ⟨⟨false⟩, ⟨false⟩, ⟨false⟩, ⟨false⟩⟩,
   ⟨[], [⟨1, 0, 0⟩, ⟨2, 0, 1⟩], none⟩⟩

/-- Like `exC7ind` but with two swing highs as well, so the momentum-extreme
heuristic does fire. -/
def exC7indW : Indicators :=
  ⟨some 1, some 1, some 1, 25, 1, ⟨"uptrend"⟩,
   ⟨⟨false⟩, ⟨false⟩, ⟨false⟩, ⟨false⟩⟩,
   ⟨[⟨3, 0, 0⟩, ⟨4, 0, 1⟩], [⟨1, 0, 0⟩, ⟨2, 0, 1⟩], none⟩⟩

/-- A flat bar used by the prefilter witness. -/
def exC8candle : Candle := ⟨0, 1, 1, 1⟩

/-- 50 flat bars. -/
def exC8candles : List Candle := List.replicate 50 exC8candle

/-- A quiet indicator bundle: all preconditions pass, no heuristic fires. -/
def exC8ind : Indicators :=
  ⟨some 1, some 1, some 1, 50, 1, ⟨"uptrend"⟩,
   ⟨⟨false⟩, ⟨false⟩, ⟨false⟩, ⟨false⟩⟩, ⟨[], [], none⟩⟩

instance : IsTotal SwingPoint (fun a b => a.price ≤ b.price) :=
  ⟨fun a b => le_total a.price b.price⟩

instance : IsTrans SwingPoint (fun a b => a.price ≤ b.price) :=
  ⟨fun _ _ _ h1 h2 => le_trans h1 h2⟩

/-! Theorems. -/

/-- Claim C1: for every signal with entry ≠ stopLoss, `calculateRMultiple`
returns exactly -1 for hit type `sl` and exactly 0 for `timeout`, regardless
of the hit price; only the `tp*` hit types yield the price-derived multiple
`(hitPrice-entry)/|entry-stopLoss|` (long) resp.
`(entry-hitPrice)/|entry-stopLoss|` (short); and when `|entry-stopLoss| = 0`
the function returns 0 for every hit type. -/
theorem C1_calculateRMultiple_fixed_values (signal : Signal) (hitPrice : ℚ) :
    (signal.entry ≠ signal.stop_loss →
      calculateRMultiple signal hitPrice HitType.sl = -1 ∧
      calculateRMultiple signal hitPrice HitType.timeout = 0 ∧
      (∀ n : ℕ, signal.direction = Direction.long →
        calculateRMultiple signal hitPrice (HitType.tp n) =
          (hitPrice - signal.entry) / |signal.entry - signal.stop_loss|) ∧
      (∀ n : ℕ, signal.direction = Direction.short →
        calculateRMultiple signal hitPrice (HitType.tp n) =
          (signal.entry - hitPrice) / |signal.entry - signal.stop_loss|)) ∧
    (signal.entry = signal.stop_loss →
      ∀ hitType, calculateRMultiple signal hitPrice hitType = 0) := by
  constructor
  · intro hne
    have hR : ¬(|signal.entry - signal.stop_loss| = 0) := by
      simp [abs_eq_zero, sub_eq_zero, hne]
    refine ⟨?_, ?_, ?_, ?_⟩
    · simp [calculateRMultiple, hR]
    · simp [calculateRMultiple, hR]
    · intro n hdir; simp [calculateRMultiple, hR, hdir]
    · intro n hdir; simp [calculateRMultiple, hR, hdir]
  · intro heq hitType
    simp [calculateRMultiple, heq]

/-- Witness for C1 at a concrete signal. -/
theorem C1_witness :
    calculateRMultiple ⟨11/10, 1095/1000, [], Direction.long, 0⟩ 2 HitType.sl = -1 :=
  ((C1_calculateRMultiple_fixed_values ⟨11/10, 1095/1000, [], Direction.long, 0⟩ 2).1
    (by norm_num)).1

/-- If a bar does not fire, the scan steps past it. -/
theorem scanCandles_cons_of_not_closes (signal : Signal) (candle : Candle)
    (rest : List Candle) (h : barCloses signal candle = false) :
    scanCandles signal (candle :: rest) = scanCandles signal rest := by
  have hsl : slHit signal.direction signal.stop_loss candle = false := by
    simp [barCloses, Bool.or_eq_false_iff] at h
    exact h.1
  have htp : firstTPHit signal.direction signal.take_profits candle = none := by
    simp [barCloses, Bool.or_eq_false_iff] at h
    exact Option.not_isSome_iff_eq_none.mp (by simp [h.2])
  simp [scanCandles, hsl, htp]

/-- Claim C2: on a post-trigger bar sequence in chronological order, the scan
closes the trade on the first bar where the stop-loss or a take-profit fires;
that bar's timestamp becomes `closedAt` (so no later-firing bar can win), and
on the closing bar the stop-loss takes priority: if it fires there the hit
kind is `sl` even when a take-profit also fires on the same bar. -/
theorem C2_first_bar_closes_sl_priority (signal : Signal) (pre : List Candle)
    (candle : Candle) (post : List Candle)
    (hsorted : (pre ++ candle :: post).Pairwise (fun a b => a.time < b.time))
    (hpre : ∀ b ∈ pre, barCloses signal b = false)
    (hfire : barCloses signal candle = true) :
    ∃ tr, scanCandles signal (pre ++ candle :: post) = some tr ∧
      tr.closedAt = candle.time ∧
      (∀ b ∈ pre ++ candle :: post, barCloses signal b = true →
        tr.closedAt ≤ b.time) ∧
      (slHit signal.direction signal.stop_loss candle = true →
        tr.hitType = HitType.sl) := by
  induction pre with
  | nil =>
    simp only [List.nil_append] at hsorted ⊢
    have hafter : ∀ b ∈ post, candle.time < b.time :=
      (List.pairwise_cons.mp hsorted).1
    by_cases hsl : slHit signal.direction signal.stop_loss candle = true
    · refine ⟨⟨HitType.sl, calculateRMultiple signal signal.stop_loss HitType.sl,
        signal.stop_loss, candle.time,
        determineOutcome HitType.sl
          (calculateRMultiple signal signal.stop_loss HitType.sl)⟩,
        ?_, rfl, ?_, fun _ => rfl⟩
      · simp [scanCandles, hsl]
      · intro b hb _
        rcases List.mem_cons.mp hb with rfl | hb'
        · exact le_refl _
        · exact le_of_lt (hafter b hb')
    · have hsl' : slHit signal.direction signal.stop_loss candle = false := by
        simpa using hsl
      have htp : (firstTPHit signal.direction signal.take_profits candle).isSome := by
        simpa [barCloses, hsl'] using hfire
      obtain ⟨⟨i, tp⟩, htp'⟩ := Option.isSome_iff_exists.mp htp
      refine ⟨⟨HitType.tp (i + 1), calculateRMultiple signal tp (HitType.tp (i + 1)),
        tp, candle.time,
        determineOutcome (HitType.tp (i + 1))
          (calculateRMultiple signal tp (HitType.tp (i + 1)))⟩,
        ?_, rfl, ?_, ?_⟩
      · simp [scanCandles, hsl', htp']
      · intro b hb _
        rcases List.mem_cons.mp hb with rfl | hb'
        · exact le_refl _
        · exact le_of_lt (hafter b hb')
      · intro h; rw [h] at hsl'; cases hsl'
  | cons b pre ih =>
    simp only [List.cons_append] at hsorted ⊢
    have hb : barCloses signal b = false := hpre b (by simp)
    have hpre' : ∀ x ∈ pre, barCloses signal x = false :=
      fun x hx => hpre x (by simp [hx])
    have hsorted' : (pre ++ candle :: post).Pairwise (fun a b => a.time < b.time) :=
      (List.pairwise_cons.mp hsorted).2
    obtain ⟨tr, hscan, hclosed, hle, hsl⟩ := ih hsorted' hpre'
    refine ⟨tr, ?_, hclosed, ?_, hsl⟩
    · rw [scanCandles_cons_of_not_closes signal b _ hb]; exact hscan
    · intro x hx hfx
      rcases List.mem_cons.mp hx with rfl | hx'
      · rw [hfx] at hb; cases hb
      · exact hle x hx' hfx

/-- Witness for C2: a single post-trigger bar that touches both the stop-loss
and the first take-profit of `exC2sig` closes the trade as an `sl` hit. -/
theorem C2_witness :
    ∃ tr, scanCandles exC2sig ([] ++ exC2candle :: []) = some tr ∧
      tr.closedAt = exC2candle.time ∧
      (∀ b ∈ [] ++ exC2candle :: [], barCloses exC2sig b = true →
        tr.closedAt ≤ b.time) ∧
      (slHit exC2sig.direction exC2sig.stop_loss exC2candle = true →
        tr.hitType = HitType.sl) :=
  C2_first_bar_closes_sl_priority exC2sig [] exC2candle []
    (by simp) (by simp)
    (by simp [barCloses, slHit, firstTPHit, firstTPHitAux, tpHit, exC2sig, exC2candle])

/-- The take-profit loop returns the first index, in stored order, whose
condition fires on the bar. -/
theorem firstTPHitAux_first (direction : Direction) (candle : Candle) :
    ∀ (tps : List ℚ) (base : ℕ) (i : ℕ) (hi : i < tps.length),
      tpHit direction (tps.get ⟨i, hi⟩) candle = true →
      ∃ (j : ℕ) (hj : j < tps.length), j ≤ i ∧
        firstTPHitAux direction candle tps base = some (base + j, tps.get ⟨j, hj⟩) ∧
        tpHit direction (tps.get ⟨j, hj⟩) candle = true ∧
        ∀ (k : ℕ) (hk : k < j), tpHit direction (tps.get ⟨k, hk.trans hj⟩) candle = false := by
  intro tps
  induction tps with
  | nil => intro base i hi; simp at hi
  | cons t ts ih =>
    intro base i hi hhit
    by_cases h : tpHit direction t candle = true
    · refine ⟨0, by simp, Nat.zero_le i, ?_, by simpa using h, ?_⟩
      · simp [firstTPHitAux, h]
      · intro k hk; omega
    · have h' : tpHit direction t candle = false := by simpa using h
      cases i with
      | zero => exact absurd (by simpa using hhit) h
      | succ i' =>
        have hi' : i' < ts.length := by simpa using hi
        have hhit' : tpHit direction (ts.get ⟨i', hi'⟩) candle = true := by
          simpa using hhit
        obtain ⟨j, hj, hji, heq, htrue, hfalse⟩ := ih (base + 1) i' hi' hhit'
        have hlen : j + 1 < (t :: ts).length := by simpa using Nat.succ_lt_succ hj
        refine ⟨j + 1, hlen, Nat.succ_le_succ hji, ?_, by simpa using htrue, ?_⟩
        · have hadd : base + 1 + j = base + (j + 1) := by omega
          simp only [firstTPHitAux, h', Bool.false_eq_true, if_false, heq, hadd]
          rfl
        · intro k hk
          cases k with
          | zero => simpa using h'
          | succ k' =>
            have hk' : k' < j := by omega
            simpa using hfalse k' hk'

/-- Claim C3: on a bar where the stop-loss does not fire, the take-profits
are tested in stored order and the first index that matches is recorded as
the hit target: the scan closes with hit kind `tp(j+1)` and hit price
`take_profits[j]` for the least firing index `j` (which is at most any other
firing index). -/
theorem C3_take_profits_in_stored_order (signal : Signal) (candle : Candle)
    (rest : List Candle) (i : ℕ) (hi : i < signal.take_profits.length)
    (hsl : slHit signal.direction signal.stop_loss candle = false)
    (hhit : tpHit signal.direction (signal.take_profits.get ⟨i, hi⟩) candle = true) :
    ∃ (j : ℕ) (hj : j < signal.take_profits.length) (tr : Transition), j ≤ i ∧
      scanCandles signal (candle :: rest) = some tr ∧
      tr.hitType = HitType.tp (j + 1) ∧
      tr.hitPrice = signal.take_profits.get ⟨j, hj⟩ ∧
      tr.closedAt = candle.time ∧
      tpHit signal.direction (signal.take_profits.get ⟨j, hj⟩) candle = true ∧
      ∀ (k : ℕ) (hk : k < j), tpHit signal.direction
        (signal.take_profits.get ⟨k, hk.trans hj⟩) candle = false := by
  obtain ⟨j, hj, hji, heq, htrue, hfalse⟩ :=
    firstTPHitAux_first signal.direction candle signal.take_profits 0 i hi hhit
  have heq0 : firstTPHit signal.direction signal.take_profits candle =
      some (j, signal.take_profits.get ⟨j, hj⟩) := by
    simpa [firstTPHit] using heq
  refine ⟨j, hj, ⟨HitType.tp (j + 1),
    calculateRMultiple signal (signal.take_profits.get ⟨j, hj⟩) (HitType.tp (j + 1)),
    signal.take_profits.get ⟨j, hj⟩, candle.time,
    determineOutcome (HitType.tp (j + 1))
      (calculateRMultiple signal (signal.take_profits.get ⟨j, hj⟩)
        (HitType.tp (j + 1)))⟩,
    hji, ?_, rfl, rfl, rfl, htrue, hfalse⟩
  simp [scanCandles, hsl, heq0]

/-- Witness for C3: a first post-trigger bar whose high 1.1250 is beyond both
TPs of `exC3sig` records hit `tp1` (index 0), never `tp2`. -/
theorem C3_witness :
    ∃ (j : ℕ) (hj : j < exC3sig.take_profits.length) (tr : Transition), j ≤ 0 ∧
      scanCandles exC3sig (exC3candle :: []) = some tr ∧
      tr.hitType = HitType.tp (j + 1) ∧
      tr.hitPrice = exC3sig.take_profits.get ⟨j, hj⟩ ∧
      tr.closedAt = exC3candle.time ∧
      tpHit exC3sig.direction (exC3sig.take_profits.get ⟨j, hj⟩) exC3candle = true ∧
      ∀ (k : ℕ) (hk : k < j), tpHit exC3sig.direction
        (exC3sig.take_profits.get ⟨k, hk.trans hj⟩) exC3candle = false :=
  C3_take_profits_in_stored_order exC3sig exC3candle [] 0 (by norm_num [exC3sig])
    (by norm_num [slHit, exC3sig, exC3candle])
    (by norm_num [tpHit, exC3sig, exC3candle])

/-- Counterexample for C9: the evaluation processes fetched bars in list
order with no re-sort and no rejection.  Fed the out-of-order list
[bar at time 2 hitting TP1, bar at time 1 hitting SL], the trade closes as a
`tp1` win at time 2; on the same bars sorted by ascending timestamp it closes
as an `sl` loss at time 1. -/
theorem C9_counterexample :
    checkTriggeredSignal exC9sig [exC9tpBar, exC9slBar] 100 ≠
      checkTriggeredSignal exC9sig (sortCandlesByTime [exC9tpBar, exC9slBar]) 100 := by
  have hab : |(1:ℚ)/200| = 1/200 := abs_of_pos (by norm_num)
  have h1 : checkTriggeredSignal exC9sig [exC9tpBar, exC9slBar] 100 =
      some ⟨HitType.tp 1, 2, 111/100, 2, "win"⟩ := by
    norm_num [hab, checkTriggeredSignal, scanCandles, slHit, firstTPHit, firstTPHitAux,
      tpHit, calculateRMultiple, determineOutcome, exC9sig, exC9tpBar, exC9slBar,
      List.filter]
  have h2 : sortCandlesByTime [exC9tpBar, exC9slBar] = [exC9slBar, exC9tpBar] := by
    norm_num [sortCandlesByTime, List.insertionSort, List.orderedInsert,
      exC9tpBar, exC9slBar]
  have h3 : checkTriggeredSignal exC9sig [exC9slBar, exC9tpBar] 100 =
      some ⟨HitType.sl, -1, 1095/1000, 1, "loss"⟩ := by
    norm_num [hab, checkTriggeredSignal, scanCandles, slHit, firstTPHit, firstTPHitAux,
      tpHit, calculateRMultiple, determineOutcome, exC9sig, exC9tpBar, exC9slBar,
      List.filter]
  rw [h1, h2, h3]
  simp

/-- Claim C9 as amended: the SL/TP/timeout evaluation performs no re-sorting
or rejection of out-of-order bars and simply processes the fetched list in
order, so its transition coincides with the sorted-list transition exactly
when the fetched bars already arrive in ascending timestamp order (as
`fetchCandles` arranges by reversing the provider's newest-first series). -/
theorem C9_amended_sorted_input_agrees (signal : Signal) (candles : List Candle)
    (timeoutCandles : ℕ)
    (hsorted : List.Sorted (fun a b : Candle => a.time ≤ b.time) candles) :
    checkTriggeredSignal signal candles timeoutCandles =
      checkTriggeredSignal signal (sortCandlesByTime candles) timeoutCandles := by
  unfold sortCandlesByTime
  rw [List.Sorted.insertionSort_eq hsorted]

/-- Witness for C9 (amended) on a concrete sorted bar list. -/
theorem C9_witness :
    checkTriggeredSignal exC9sig [exC9slBar, exC9tpBar] 100 =
      checkTriggeredSignal exC9sig (sortCandlesByTime [exC9slBar, exC9tpBar]) 100 :=
  C9_amended_sorted_input_agrees exC9sig [exC9slBar, exC9tpBar] 100
    (by norm_num [List.sorted_cons, exC9slBar, exC9tpBar])

/-- The RSI formula stays within [0, 100) whenever both smoothed averages are
nonnegative: the rs ratio is nonnegative, so `100/(1+rs)` lies in (0, 100]. -/
theorem rsiVal_bounds (g l : ℚ) (hg : 0 ≤ g) (hl : 0 ≤ l) :
    0 ≤ rsiVal g l ∧ rsiVal g l < 100 := by
  unfold rsiVal
  set rs := if l = 0 then (100 : ℚ) else g / l with hrs
  have hrs0 : 0 ≤ rs := by
    rw [hrs]; split
    · norm_num
    · exact div_nonneg hg hl
  have h1 : (0 : ℚ) < 1 + rs := by linarith
  constructor
  · have h2 : 100 / (1 + rs) ≤ 100 := by
      rw [div_le_iff₀ h1]; nlinarith
    linarith
  · have h3 : 0 < 100 / (1 + rs) := div_pos (by norm_num) h1
    linarith

/-- The seed average gain is a mean of nonnegative terms. -/
theorem seedAvgGain_nonneg (changes : List ℚ) (period : ℕ) :
    0 ≤ seedAvgGain changes period := by
  unfold seedAvgGain
  apply div_nonneg _ (by positivity)
  apply List.sum_nonneg
  intro x hx
  simp only [List.mem_map] at hx
  obtain ⟨c, _, rfl⟩ := hx
  split
  · linarith [show (0:ℚ) < c by assumption]
  · exact le_refl 0

/-- The seed average loss is a mean of nonnegative terms. -/
theorem seedAvgLoss_nonneg (changes : List ℚ) (period : ℕ) :
    0 ≤ seedAvgLoss changes period := by
  unfold seedAvgLoss
  apply div_nonneg _ (by positivity)
  apply List.sum_nonneg
  intro x hx
  simp only [List.mem_map] at hx
  obtain ⟨c, _, rfl⟩ := hx
  split
  · exact le_refl 0
  · exact abs_nonneg c

/-- Every value produced by the Wilder smoothing loop lies in [0, 100) when
it starts from nonnegative averages. -/
theorem rsiRest_mem_bounds (period : ℕ) (hp : 1 ≤ period) :
    ∀ (cs : List ℚ) (g l : ℚ), 0 ≤ g → 0 ≤ l →
      ∀ v ∈ rsiRest period g l cs, 0 ≤ v ∧ v < 100 := by
  intro cs
  induction cs with
  | nil => intro g l _ _ v hv; simp [rsiRest] at hv
  | cons c cs ih =>
    intro g l hg hl v hv
    have hpQ : (0 : ℚ) < period := by
      have : (1 : ℚ) ≤ (period : ℚ) := by exact_mod_cast hp
      linarith
    have hpm1 : (0 : ℚ) ≤ (period : ℚ) - 1 := by
      have : (1 : ℚ) ≤ (period : ℚ) := by exact_mod_cast hp
      linarith
    have hgain : (0 : ℚ) ≤ (if 0 < c then c else 0) := by
      split
      · linarith [show (0:ℚ) < c by assumption]
      · exact le_refl 0
    have hloss : (0 : ℚ) ≤ (if c < 0 then |c| else 0) := by
      split
      · exact abs_nonneg c
      · exact le_refl 0
    have hg' : 0 ≤ (g * ((period : ℚ) - 1) + (if 0 < c then c else 0)) / period :=
      div_nonneg (add_nonneg (mul_nonneg hg hpm1) hgain) hpQ.le
    have hl' : 0 ≤ (l * ((period : ℚ) - 1) + (if c < 0 then |c| else 0)) / period :=
      div_nonneg (add_nonneg (mul_nonneg hl hpm1) hloss) hpQ.le
    simp only [rsiRest, List.mem_cons] at hv
    rcases hv with rfl | hv'
    · exact rsiVal_bounds _ _ hg' hl'
    · exact ih _ _ hg' hl' v hv'

/-- Claim C4 as amended: every defined RSI output lies in [0, 100) — so it is
within the claimed [0, 100] but never reaches 100 — and when the smoothed
average loss is exactly 0 the produced value is `100 - 100/(1+100) =
10000/101 ≈ 99.01`, not 100, because the source substitutes the finite ratio
`rs = 100` for the undefined quotient. -/
theorem C4_amended_rsi_bounds (prices : List ℚ) (period : ℕ) (hp : 1 ≤ period) :
    (∀ v : ℚ, some v ∈ calculateRSI prices period → 0 ≤ v ∧ v < 100) ∧
    (∀ g : ℚ, rsiVal g 0 = 10000 / 101) := by
  constructor
  · intro v hv
    unfold calculateRSI at hv
    split at hv
    · exact absurd (List.eq_of_mem_replicate hv) (by simp)
    · simp only [List.mem_append, List.mem_cons, List.mem_map] at hv
      have hg0 : 0 ≤ seedAvgGain (priceChanges prices) period :=
        seedAvgGain_nonneg _ _
      have hl0 : 0 ≤ seedAvgLoss (priceChanges prices) period :=
        seedAvgLoss_nonneg _ _
      rcases hv with hrep | heq | ⟨w, hw, hwv⟩
      · exact absurd (List.eq_of_mem_replicate hrep) (by simp)
      · obtain rfl : v = rsiVal (seedAvgGain (priceChanges prices) period)
            (seedAvgLoss (priceChanges prices) period) := by
          exact Option.some_inj.mp heq
        exact rsiVal_bounds _ _ hg0 hl0
      · obtain rfl : w = v := Option.some_inj.mp hwv
        exact rsiRest_mem_bounds period hp _ _ _ hg0 hl0 w hw
  · intro g
    unfold rsiVal
    norm_num

/-- Counterexample for C4: on the 2-price series [1, 2] with period 1 the
seed average loss is exactly 0, yet the RSI produced there is
`10000/101 ≈ 99.01`, not 100. -/
theorem C4_counterexample :
    seedAvgLoss (priceChanges [1, 2]) 1 = 0 ∧
    calculateRSI [1, 2] 1 = [none, some (10000 / 101)] ∧
    (10000 / 101 : ℚ) ≠ 100 := by
  refine ⟨?_, ?_, by norm_num⟩
  · norm_num [seedAvgLoss, priceChanges]
  · norm_num [calculateRSI, priceChanges, seedAvgGain, seedAvgLoss, rsiRest,
      rsiVal, List.replicate]

/-- Witness for C4 (amended) at a concrete series and period. -/
theorem C4_witness :
    (∀ v : ℚ, some v ∈ calculateRSI [1, 2] 1 → 0 ≤ v ∧ v < 100) ∧
    (∀ g : ℚ, rsiVal g 0 = 10000 / 101) :=
  C4_amended_rsi_bounds [1, 2] 1 (by norm_num)

/-- The EMA recurrence chain has one output per remaining price. -/
theorem emaFrom_length (m : ℚ) : ∀ (l : List ℚ) (prev : ℚ),
    (emaFrom m prev l).length = l.length := by
  intro l
  induction l with
  | nil => intro prev; simp [emaFrom]
  | cons a rest ih => intro prev; simp [emaFrom, ih]

/-- Each element of the EMA chain after the first is obtained from its
predecessor and the matching price by the EMA recurrence. -/
theorem emaFrom_step (m : ℚ) : ∀ (l : List ℚ) (prev : ℚ) (k : ℕ),
    k + 1 < l.length →
    ∃ e x, (emaFrom m prev l)[k]? = some e ∧ l[k + 1]? = some x ∧
      (emaFrom m prev l)[k + 1]? = some ((x - e) * m + e) := by
  intro l
  induction l with
  | nil => intro prev k hk; simp at hk
  | cons a rest ih =>
    intro prev k hk
    cases k with
    | zero =>
      cases rest with
      | nil => simp at hk
      | cons x rest' =>
        exact ⟨(a - prev) * m + prev, x, by simp [emaFrom], by simp,
          by simp [emaFrom]⟩
    | succ k' =>
      have hk' : k' + 1 < rest.length := by simpa using hk
      obtain ⟨e, x, h1, h2, h3⟩ := ih ((a - prev) * m + prev) k' hk'
      exact ⟨e, x, by simpa [emaFrom] using h1, by simpa using h2,
        by simpa [emaFrom] using h3⟩

/-- Claim C5: for `1 ≤ p ≤ n`, `calculateEMA` returns an array of length `n`
whose first `p-1` entries are undefined, whose entry at index `p-1` is the
arithmetic mean of the first `p` prices, and whose entry at each index
`i ≥ p` follows the recurrence
`ema[i] = (price[i] - ema[i-1]) * (2/(p+1)) + ema[i-1]`; and for `n < p`
every output entry is undefined. -/
theorem C5_calculateEMA_shape (prices : List ℚ) (period : ℕ) (hp : 1 ≤ period) :
    (prices.length < period → ∀ x ∈ calculateEMA prices period, x = none) ∧
    (period ≤ prices.length →
      (calculateEMA prices period).length = prices.length ∧
      (∀ i, i < period - 1 → (calculateEMA prices period)[i]? = some none) ∧
      (calculateEMA prices period)[period - 1]? =
        some (some ((prices.take period).sum / period)) ∧
      (∀ i, period ≤ i → i < prices.length →
        ∃ prev pi, (calculateEMA prices period)[i - 1]? = some (some prev) ∧
          prices[i]? = some pi ∧
          (calculateEMA prices period)[i]? =
            some (some ((pi - prev) * (2 / ((period : ℚ) + 1)) + prev)))) := by
  constructor
  · intro hlt x hx
    unfold calculateEMA at hx
    split at hx
    · simp at hx
    · split at hx
      · exact List.eq_of_mem_replicate hx
      · rename_i h2
        exact absurd (Or.inr hlt) h2
  · intro hge
    have hne : ¬(prices.length = 0) := by omega
    have hcond : ¬(period = 0 ∨ prices.length < period) := by omega
    have hEMA : calculateEMA prices period =
        List.replicate (period - 1) none ++
          some ((prices.take period).sum / period) ::
            (emaFrom (2 / ((period : ℚ) + 1)) ((prices.take period).sum / period)
              (prices.drop period)).map some := by
      unfold calculateEMA
      rw [if_neg hne, if_neg hcond]
    set m : ℚ := 2 / ((period : ℚ) + 1) with hm
    set sma : ℚ := (prices.take period).sum / period with hsma
    set E : List ℚ := emaFrom m sma (prices.drop period) with hE
    have hlenE : E.length = prices.length - period := by
      rw [hE, emaFrom_length, List.length_drop]
    refine ⟨?_, ?_, ?_, ?_⟩
    · rw [hEMA]
      simp only [List.length_append, List.length_replicate, List.length_cons,
        List.length_map]
      omega
    · intro i hi
      rw [hEMA, List.getElem?_append_left (by simpa using hi)]
      simp [List.getElem?_replicate, hi]
    · rw [hEMA, List.getElem?_append_right (by simp)]
      simp
    · intro i hi1 hi2
      by_cases hcase : i = period
      · subst hcase
        have hdrop_ne : prices.drop i ≠ [] := by
          intro h
          have := List.length_drop i prices
          rw [h] at this
          simp at this
          omega
        obtain ⟨x, rest', hx⟩ := List.exists_cons_of_ne_nil hdrop_ne
        refine ⟨sma, x, ?_, ?_, ?_⟩
        · rw [hEMA, List.getElem?_append_right (by simp)]
          simp
        · have hdg := List.getElem?_drop prices i 0
          rw [hx] at hdg
          simpa using hdg.symm
        · rw [hEMA, List.getElem?_append_right (by simp only [List.length_replicate]; omega)]
          have h1 : i - (i - 1) = 1 := by omega
          rw [List.length_replicate, h1, List.getElem?_cons_succ,
            List.getElem?_map]
          rw [hE, hx]
          simp [emaFrom]
      · have hi3 : period + 1 ≤ i := by omega
        have hkk : (i - period - 1) + 1 < (prices.drop period).length := by
          simp only [List.length_drop]
          omega
        obtain ⟨e, x, h1, h2, h3⟩ := emaFrom_step m (prices.drop period) sma
          (i - period - 1) hkk
        rw [← hE] at h1 h3
        refine ⟨e, x, ?_, ?_, ?_⟩
        · rw [hEMA, List.getElem?_append_right (by simp only [List.length_replicate]; omega)]
          have hidx : i - 1 - (period - 1) = (i - period - 1) + 1 := by omega
          rw [List.length_replicate, hidx, List.getElem?_cons_succ,
            List.getElem?_map, h1]
          rfl
        · have hidx : period + ((i - period - 1) + 1) = i := by omega
          have hdg := List.getElem?_drop prices period ((i - period - 1) + 1)
          rw [h2, hidx] at hdg
          exact hdg.symm
        · rw [hEMA, List.getElem?_append_right (by simp only [List.length_replicate]; omega)]
          have hidx : i - (period - 1) = ((i - period - 1) + 1) + 1 := by omega
          rw [List.length_replicate, hidx, List.getElem?_cons_succ,
            List.getElem?_map, h3]
          rfl

/-- Witness for C5 at a concrete series: length, leading-undefined, seed-mean
and recurrence facts for prices [1, 2, 3] with period 2. -/
theorem C5_witness :
    (calculateEMA [1, 2, 3] 2).length = ([1, 2, 3] : List ℚ).length :=
  ((C5_calculateEMA_shape [1, 2, 3] 2 (by norm_num)).2 (by norm_num)).1

/-- A list whose `head?` is `some a` is `a` consed on some tail. -/
theorem head_some_exists_tail {α : Type} (l : List α) (a : α)
    (h : l.head? = some a) : ∃ t, l = a :: t := by
  cases l with
  | nil => simp at h
  | cons b t =>
    simp only [List.head?_cons, Option.some_inj] at h
    exact ⟨t, by rw [h]⟩

/-- The greedy grouping loop flushes every input exactly once: the
concatenation of the produced clusters is the current cluster followed by the
remaining swings. -/
theorem clusterGo_join (threshold : ℚ) :
    ∀ (rest : List SwingPoint) (anchor : SwingPoint) (cur : List SwingPoint),
      (clusterGo threshold anchor cur rest).flatten = cur ++ rest := by
  intro rest
  induction rest with
  | nil => intro anchor cur; simp [clusterGo]
  | cons s rest ih =>
    intro anchor cur
    simp only [clusterGo]
    split
    · rw [ih]; simp
    · simp only [List.flatten_cons, ih]; simp

/-- Every cluster produced by the greedy loop is nonempty. -/
theorem clusterGo_ne_nil (threshold : ℚ) :
    ∀ (rest : List SwingPoint) (anchor : SwingPoint) (cur : List SwingPoint),
      cur ≠ [] → ∀ c ∈ clusterGo threshold anchor cur rest, c ≠ [] := by
  intro rest
  induction rest with
  | nil =>
    intro anchor cur hcur c hc
    simp only [clusterGo, List.mem_singleton] at hc
    rw [hc]; exact hcur
  | cons s rest ih =>
    intro anchor cur hcur c hc
    simp only [clusterGo] at hc
    split at hc
    · exact ih anchor (cur ++ [s]) (by simp) c hc
    · rcases List.mem_cons.mp hc with rfl | hc'
      · exact hcur
      · exact ih s [s] (by simp) c hc'

/-- Every cluster produced by the greedy loop starts with its anchor and all
its members lie within `threshold` of that first member. -/
theorem clusterGo_anchor (threshold : ℚ) (hth : 0 ≤ threshold) :
    ∀ (rest : List SwingPoint) (anchor : SwingPoint) (cur : List SwingPoint),
      cur.head? = some anchor →
      (∀ m ∈ cur, |m.price - anchor.price| ≤ threshold) →
      ∀ c ∈ clusterGo threshold anchor cur rest,
        ∃ a tail, c = a :: tail ∧ ∀ m ∈ c, |m.price - a.price| ≤ threshold := by
  intro rest
  induction rest with
  | nil =>
    intro anchor cur hhead hcur c hc
    simp only [clusterGo, List.mem_singleton] at hc
    obtain ⟨tail, htail⟩ := head_some_exists_tail cur anchor hhead
    exact ⟨anchor, tail, hc.trans htail, fun m hm => hcur m (hc ▸ hm)⟩
  | cons s rest ih =>
    intro anchor cur hhead hcur c hc
    simp only [clusterGo] at hc
    split at hc
    · rename_i hs
      refine ih anchor (cur ++ [s]) ?_ ?_ c hc
      · obtain ⟨tail, htail⟩ := head_some_exists_tail cur anchor hhead
        rw [htail]; simp
      · intro m hm
        rcases List.mem_append.mp hm with hm' | hm'
        · exact hcur m hm'
        · obtain rfl : m = s := by simpa using hm'
          exact hs
    · rcases List.mem_cons.mp hc with hceq | hc'
      · obtain ⟨tail, htail⟩ := head_some_exists_tail cur anchor hhead
        exact ⟨anchor, tail, hceq.trans htail, fun m hm => hcur m (hceq ▸ hm)⟩
      · refine ih s [s] (by simp) ?_ c hc'
        intro m hm
        obtain rfl : m = s := by simpa using hm
        simpa using hth

/-- The clusters partition the price-sorted swing list. -/
theorem clusterMembers_join (swings : List SwingPoint) (threshold : ℚ) :
    (clusterMembers swings threshold).flatten = sortByPrice swings := by
  rcases h : sortByPrice swings with _ | ⟨s, rest⟩ <;>
    simp only [clusterMembers, h]
  · simp
  · rw [clusterGo_join]; rfl

/-- Every cluster of `clusterMembers` is nonempty. -/
theorem clusterMembers_ne_nil (swings : List SwingPoint) (threshold : ℚ) :
    ∀ c ∈ clusterMembers swings threshold, c ≠ [] := by
  intro c hc
  rcases h : sortByPrice swings with _ | ⟨s, rest⟩ <;>
    simp only [clusterMembers, h] at hc
  · simp at hc
  · exact clusterGo_ne_nil threshold rest s [s] (by simp) c hc

/-- Every summarized cluster records at least one touch. -/
theorem clusterSwings_touches_pos (swings : List SwingPoint) (threshold : ℚ) :
    ∀ c ∈ clusterSwings swings threshold, 1 ≤ c.touches := by
  intro c hc
  unfold clusterSwings at hc
  rcases List.mem_map.mp hc with ⟨mem, hmem, rfl⟩
  have hne := clusterMembers_ne_nil swings threshold mem hmem
  have : 0 < mem.length := List.length_pos.mpr hne
  simpa [summarize] using this

/-- The touch counts of the clusters sum to the number of input swings. -/
theorem clusterSwings_touches_sum (swings : List SwingPoint) (threshold : ℚ) :
    ((clusterSwings swings threshold).map (fun c => c.touches)).sum =
      swings.length := by
  unfold clusterSwings
  rw [List.map_map]
  have h1 : ((clusterMembers swings threshold).map
      (ClusterOut.touches ∘ summarize)) =
      (clusterMembers swings threshold).map List.length := rfl
  rw [h1, ← List.length_flatten, clusterMembers_join]
  unfold sortByPrice
  exact (List.perm_insertionSort _ swings).length_eq

/-- Claim C6: clustering sorts the swings by price ascending and groups them
greedily against each cluster's first member: every member is within
`threshold` of that first member, and each returned level carries the
arithmetic mean of its cluster's member prices and the member count. -/
theorem C6_clustering_anchor_mean_count (swings : List SwingPoint)
    (threshold : ℚ) (hth : 0 < threshold) :
    List.Sorted (fun a b : SwingPoint => a.price ≤ b.price)
      (sortByPrice swings) ∧
    (∀ c ∈ clusterMembers swings threshold,
      ∃ a tail, c = a :: tail ∧ ∀ m ∈ c, |m.price - a.price| ≤ threshold) ∧
    (∀ out ∈ clusterSwings swings threshold,
      ∃ c ∈ clusterMembers swings threshold,
        out.avgPrice = (c.map (fun s => s.price)).sum / c.length ∧
        out.touches = c.length) := by
  refine ⟨List.sorted_insertionSort _ swings, ?_, ?_⟩
  · intro c hc
    rcases h : sortByPrice swings with _ | ⟨s, rest⟩ <;>
      simp only [clusterMembers, h] at hc
    · simp at hc
    · refine clusterGo_anchor threshold hth.le rest s [s] (by simp) ?_ c hc
      intro m hm
      obtain rfl : m = s := by simpa using hm
      simpa using hth.le
  · intro out hout
    unfold clusterSwings at hout
    rcases List.mem_map.mp hout with ⟨c, hc, rfl⟩
    exact ⟨c, hc, rfl, rfl⟩

/-- Witness for C6 on a concrete swing list and threshold. -/
theorem C6_witness :
    List.Sorted (fun a b : SwingPoint => a.price ≤ b.price)
      (sortByPrice [⟨1, 0, 0⟩, ⟨2, 0, 1⟩]) ∧
    (∀ c ∈ clusterMembers [⟨1, 0, 0⟩, ⟨2, 0, 1⟩] 3,
      ∃ a tail, c = a :: tail ∧ ∀ m ∈ c, |m.price - a.price| ≤ 3) ∧
    (∀ out ∈ clusterSwings [⟨1, 0, 0⟩, ⟨2, 0, 1⟩] 3,
      ∃ c ∈ clusterMembers [⟨1, 0, 0⟩, ⟨2, 0, 1⟩] 3,
        out.avgPrice = (c.map (fun s => s.price)).sum / c.length ∧
        out.touches = c.length) :=
  C6_clustering_anchor_mean_count [⟨1, 0, 0⟩, ⟨2, 0, 1⟩] 3 (by norm_num)

/-- Claim C10: for positive ATR, the S/R levels partition the input swings:
every returned level has at least 1 touch, the touch counts of the
resistance levels sum to the number of swing highs, and those of the support
levels sum to the number of swing lows. -/
theorem C10_SR_levels_partition (swingHighs swingLows : List SwingPoint)
    (atrValue threshold : ℚ) (hatr : 0 < atrValue) :
    (∀ lvl ∈ identifySRLevels swingHighs swingLows atrValue threshold,
      1 ≤ lvl.touches) ∧
    (((identifySRLevels swingHighs swingLows atrValue threshold).filter
        (fun l => l.type == "resistance")).map (fun l => l.touches)).sum =
      swingHighs.length ∧
    (((identifySRLevels swingHighs swingLows atrValue threshold).filter
        (fun l => l.type == "support")).map (fun l => l.touches)).sum =
      swingLows.length := by
  have hif : ¬(atrValue ≤ 0) := not_le.mpr hatr
  set ct := atrValue * threshold with hct
  set res := (clusterSwings swingHighs ct).map
    (fun c => SRLevel.mk c.avgPrice "resistance" c.touches) with hres
  set sup := (clusterSwings swingLows ct).map
    (fun c => SRLevel.mk c.avgPrice "support" c.touches) with hsup
  have hID : identifySRLevels swingHighs swingLows atrValue threshold =
      List.insertionSort (fun a b => b.price ≤ a.price) (res ++ sup) := by
    unfold identifySRLevels
    rw [if_neg hif]
  have hperm : List.Perm
      (List.insertionSort (fun a b : SRLevel => b.price ≤ a.price) (res ++ sup))
      (res ++ sup) := List.perm_insertionSort _ _
  have hfilres : (res ++ sup).filter (fun l => l.type == "resistance") = res := by
    rw [List.filter_append]
    have h1 : res.filter (fun l => l.type == "resistance") = res := by
      apply List.filter_eq_self.mpr
      intro l hl
      rcases List.mem_map.mp hl with ⟨c, _, rfl⟩
      rfl
    have h2 : sup.filter (fun l => l.type == "resistance") = [] := by
      apply List.filter_eq_nil_iff.mpr
      intro l hl
      rcases List.mem_map.mp hl with ⟨c, _, rfl⟩
      simp
    rw [h1, h2, List.append_nil]
  have hfilsup : (res ++ sup).filter (fun l => l.type == "support") = sup := by
    rw [List.filter_append]
    have h1 : res.filter (fun l => l.type == "support") = [] := by
      apply List.filter_eq_nil_iff.mpr
      intro l hl
      rcases List.mem_map.mp hl with ⟨c, _, rfl⟩
      simp
    have h2 : sup.filter (fun l => l.type == "support") = sup := by
      apply List.filter_eq_self.mpr
      intro l hl
      rcases List.mem_map.mp hl with ⟨c, _, rfl⟩
      rfl
    rw [h1, h2, List.nil_append]
  refine ⟨?_, ?_, ?_⟩
  · intro lvl hlvl
    rw [hID] at hlvl
    have hmem : lvl ∈ res ++ sup := hperm.mem_iff.mp hlvl
    rcases List.mem_append.mp hmem with hm | hm
    · rcases List.mem_map.mp hm with ⟨c, hc, rfl⟩
      exact clusterSwings_touches_pos swingHighs ct c hc
    · rcases List.mem_map.mp hm with ⟨c, hc, rfl⟩
      exact clusterSwings_touches_pos swingLows ct c hc
  · rw [hID]
    have hs := (((hperm.filter (fun l => l.type == "resistance")).map
      (fun l : SRLevel => l.touches)).sum_eq)
    rw [hs, hfilres, hres, List.map_map]
    have : ((fun l : SRLevel => l.touches) ∘
        (fun c : ClusterOut => SRLevel.mk c.avgPrice "resistance" c.touches)) =
        fun c : ClusterOut => c.touches := rfl
    rw [this]
    exact clusterSwings_touches_sum swingHighs ct
  · rw [hID]
    have hs := (((hperm.filter (fun l => l.type == "support")).map
      (fun l : SRLevel => l.touches)).sum_eq)
    rw [hs, hfilsup, hsup, List.map_map]
    have : ((fun l : SRLevel => l.touches) ∘
        (fun c : ClusterOut => SRLevel.mk c.avgPrice "support" c.touches)) =
        fun c : ClusterOut => c.touches := rfl
    rw [this]
    exact clusterSwings_touches_sum swingLows ct

/-- Witness for C10 on concrete swing lists and ATR. -/
theorem C10_witness :
    (∀ lvl ∈ identifySRLevels [⟨1, 0, 0⟩, ⟨2, 0, 1⟩] [⟨1, 2, 2⟩] 1 (1/2),
      1 ≤ lvl.touches) ∧
    (((identifySRLevels [⟨1, 0, 0⟩, ⟨2, 0, 1⟩] [⟨1, 2, 2⟩] 1 (1/2)).filter
        (fun l => l.type == "resistance")).map (fun l => l.touches)).sum =
      ([⟨1, 0, 0⟩, ⟨2, 0, 1⟩] : List SwingPoint).length ∧
    (((identifySRLevels [⟨1, 0, 0⟩, ⟨2, 0, 1⟩] [⟨1, 2, 2⟩] 1 (1/2)).filter
        (fun l => l.type == "support")).map (fun l => l.touches)).sum =
      ([⟨1, 2, 2⟩] : List SwingPoint).length :=
  C10_SR_levels_partition [⟨1, 0, 0⟩, ⟨2, 0, 1⟩] [⟨1, 2, 2⟩] 1 (1/2) (by norm_num)

/-- Counterexample for C7: an aggressive-mode bundle with RSI 25 (< 30) and
two recorded swing lows, but no swing highs.  Every precondition of
`applyPrefilters` passes, yet the momentum-extreme heuristic does not trigger
(the candidate result is a rejection with empty reason): `checkRSIDivergence`
returns before its RSI branches unless there are also at least 2 swing
highs. -/
theorem C7_counterexample :
    exC7ind.rsi14 < 30 ∧ 2 ≤ exC7ind.swings.swingLows.length ∧
    checkRSIDivergence exC7candles exC7ind = none ∧
    applyPrefilters exC7candles exC7ind "aggressive" = ⟨false, ""⟩ := by
  refine ⟨by norm_num [exC7ind], by norm_num [exC7ind], ?_, ?_⟩
  · norm_num [checkRSIDivergence, exC7ind]
  · have hch : ("uptrend" : String) ≠ "choppy" := by decide
    norm_num [applyPrefilters, triggeredReasons, checkTrendAlignedEngulfing,
      checkPinBarAtStructure, checkPullbackIntoTrend, checkRSIDivergence,
      checkReversalAtSR, truthy, getMinimumATR, hch, exC7ind, exC7candles,
      exC7candle]

/-- Claim C7 as amended: in aggressive mode the momentum-extreme heuristic
fires for RSI < 30 exactly when there are at least 2 recorded swing lows AND
at least 2 recorded swing highs (the source requires both before testing
either RSI branch), and symmetrically for RSI > 70; when it fires its reason
string is among the triggered reasons that `applyPrefilters` joins.  In
conservative mode the heuristic is never consulted: the prefilter result is
unchanged under any change of the RSI value. -/
theorem C7_amended_momentum_extreme (candles : List Candle)
    (indicators : Indicators) :
    (indicators.rsi14 < 30 → 2 ≤ indicators.swings.swingLows.length →
      2 ≤ indicators.swings.swingHighs.length →
      checkRSIDivergence candles indicators =
        some "RSI oversold with potential bullish divergence" ∧
      "RSI oversold with potential bullish divergence" ∈
        triggeredReasons candles indicators "aggressive") ∧
    (70 < indicators.rsi14 → 2 ≤ indicators.swings.swingHighs.length →
      2 ≤ indicators.swings.swingLows.length →
      checkRSIDivergence candles indicators =
        some "RSI overbought with potential bearish divergence" ∧
      "RSI overbought with potential bearish divergence" ∈
        triggeredReasons candles indicators "aggressive") ∧
    (∀ x y : ℚ,
      applyPrefilters candles { indicators with rsi14 := x } "conservative" =
        applyPrefilters candles { indicators with rsi14 := y } "conservative") := by
  refine ⟨?_, ?_, ?_⟩
  · intro h1 h2 h3
    have hdiv : checkRSIDivergence candles indicators =
        some "RSI oversold with potential bullish divergence" := by
      unfold checkRSIDivergence
      rw [if_neg (by omega), if_pos ⟨h1, h2⟩]
    refine ⟨hdiv, ?_⟩
    simp only [triggeredReasons, List.mem_filterMap, id]
    exact ⟨some "RSI oversold with potential bullish divergence",
      by simp [hdiv], rfl⟩
  · intro h1 h2 h3
    have hnot : ¬(indicators.rsi14 < 30 ∧
        2 ≤ indicators.swings.swingLows.length) := by
      rintro ⟨hlt, _⟩; linarith
    have hdiv : checkRSIDivergence candles indicators =
        some "RSI overbought with potential bearish divergence" := by
      unfold checkRSIDivergence
      rw [if_neg (by omega), if_neg hnot, if_pos ⟨h1, h2⟩]
    refine ⟨hdiv, ?_⟩
    simp only [triggeredReasons, List.mem_filterMap, id]
    exact ⟨some "RSI overbought with potential bearish divergence",
      by simp [hdiv], rfl⟩
  · intro x y
    rfl

/-- Witness for C7 (amended) on a concrete aggressive-mode bundle with RSI 25
and two swing lows and two swing highs. -/
theorem C7_witness :
    checkRSIDivergence exC7candles exC7indW =
      some "RSI oversold with potential bullish divergence" ∧
    "RSI oversold with potential bullish divergence" ∈
      triggeredReasons exC7candles exC7indW "aggressive" :=
  (C7_amended_momentum_extreme exC7candles exC7indW).1 (by norm_num [exC7indW])
    (by norm_num [exC7indW]) (by norm_num [exC7indW])

/-- Claim C8: `applyPrefilters` fails fast, in order, on fewer than 50 bars,
missing (falsy) ATR/fast-MA/slow-MA, ATR below the price-scaled floor
(0.0001 for price < 10, else price × 0.0001), and a choppy trend — each
returning `isCandidate = false` with the corresponding reason and consulting
no heuristic; once all preconditions pass, the returned reason is exactly the
" + "-join of the triggered heuristic reason strings, with
`isCandidate = false` and an empty reason when none triggered. -/
theorem C8_applyPrefilters_branches (candles : List Candle)
    (indicators : Indicators) (mode : String) :
    (candles.length < 50 →
      applyPrefilters candles indicators mode =
        ⟨false, "Insufficient candle data"⟩) ∧
    (50 ≤ candles.length →
      (truthy indicators.atr14 && truthy indicators.ema50 &&
        truthy indicators.ema200) = false →
      applyPrefilters candles indicators mode =
        ⟨false, "Missing required indicators"⟩) ∧
    (50 ≤ candles.length →
      (truthy indicators.atr14 && truthy indicators.ema50 &&
        truthy indicators.ema200) = true →
      indicators.atr14.getD 0 < getMinimumATR indicators.currentPrice →
      applyPrefilters candles indicators mode =
        ⟨false, "ATR too small (" ++ toFixed5 (indicators.atr14.getD 0) ++
          " < " ++ toFixed5 (getMinimumATR indicators.currentPrice) ++
          "), insufficient volatility"⟩) ∧
    (50 ≤ candles.length →
      (truthy indicators.atr14 && truthy indicators.ema50 &&
        truthy indicators.ema200) = true →
      ¬(indicators.atr14.getD 0 < getMinimumATR indicators.currentPrice) →
      indicators.trend.direction = "choppy" →
      applyPrefilters candles indicators mode =
        ⟨false, "Choppy market with flat EMAs, no clear trend"⟩) ∧
    (50 ≤ candles.length →
      (truthy indicators.atr14 && truthy indicators.ema50 &&
        truthy indicators.ema200) = true →
      ¬(indicators.atr14.getD 0 < getMinimumATR indicators.currentPrice) →
      indicators.trend.direction ≠ "choppy" →
      (triggeredReasons candles indicators mode = [] →
        applyPrefilters candles indicators mode = ⟨false, ""⟩) ∧
      (triggeredReasons candles indicators mode ≠ [] →
        applyPrefilters candles indicators mode =
          ⟨true, String.intercalate " + "
            (triggeredReasons candles indicators mode)⟩)) ∧
    (∀ p : ℚ, getMinimumATR p = if p < 10 then 0.0001 else p * 0.0001) := by
  refine ⟨?_, ?_, ?_, ?_, ?_, fun p => rfl⟩
  · intro h
    simp [applyPrefilters, h]
  · intro h50 hmiss
    simp [applyPrefilters, Nat.not_lt.mpr h50, hmiss]
  · intro h50 htrue hatr
    simp [applyPrefilters, Nat.not_lt.mpr h50, htrue, hatr]
  · intro h50 htrue hatrNot hchoppy
    simp [applyPrefilters, Nat.not_lt.mpr h50, htrue, hatrNot, hchoppy]
  · intro h50 htrue hatrNot hnotchoppy
    constructor
    · intro hre
      simp [applyPrefilters, Nat.not_lt.mpr h50, htrue, hatrNot, hnotchoppy, hre]
    · intro hre
      have hlen : ¬(triggeredReasons candles indicators mode).length = 0 := by
        simpa [List.length_eq_zero] using hre
      simp [applyPrefilters, Nat.not_lt.mpr h50, htrue, hatrNot, hnotchoppy, hlen]

/-- Witness for C8: a quiet 50-bar bundle passes every precondition, triggers
no heuristic, and yields a rejection with empty reason. -/
theorem C8_witness :
    applyPrefilters exC8candles exC8ind "conservative" = ⟨false, ""⟩ :=
  (((C8_applyPrefilters_branches exC8candles exC8ind "conservative").2.2.2.2.1
    (by norm_num [exC8candles])
    (by norm_num [truthy, exC8ind])
    (by norm_num [exC8ind, getMinimumATR])
    (by show ¬("uptrend" : String) = "choppy"; decide)).1
    (by
      have hch : ("uptrend" : String) ≠ "choppy" := by decide
      norm_num [triggeredReasons, checkTrendAlignedEngulfing,
        checkPinBarAtStructure, checkPullbackIntoTrend, checkRSIDivergence,
        checkReversalAtSR, exC8ind, exC8candles, exC8candle]))
